import Mathlib

/-!
Verification of the screen-recorder application (React client + Express/MySQL
server).  The definitions below are a shallow embedding of the source:

* the client `App` component state (useState fields) becomes `AppState`;
* event handlers (`startRecording`, `stopRecording`, the timer tick,
  `recorder.onstop`, the display-track `onended` handler, `handleUpload`)
  become functions on `AppState`.  React closures capture the state values of
  the render in which they were created, so every handler takes both the
  captured render snapshot (`snap`) and the current state (`cur`): reads of
  state variables go through `snap`, setter calls update `cur`;
* calls to `track.stop()` and `mediaRecorder.stop()` are recorded as events
  in `StopEvents` so that resource-release claims can count them;
* the Express server (`POST /api/recordings`, `GET /api/recordings`,
  `GET /api/recordings/:id`) becomes functions on `ServerState`, with the
  MySQL table as a list of rows and the uploads directory as an association
  list from filename to bytes.
-/

/-! ### Media model -/

inductive TrackKind
  | video
  | audio
deriving DecidableEq, Repr

structure MediaStreamTrack where
  id : Nat
  kind : TrackKind
deriving DecidableEq, Repr

structure MediaStream where
  tracks : List MediaStreamTrack
deriving DecidableEq, Repr

def MediaStream.getVideoTracks (s : MediaStream) : List MediaStreamTrack :=
  s.tracks.filter (fun t => t.kind = TrackKind.video)

def MediaStream.getAudioTracks (s : MediaStream) : List MediaStreamTrack :=
  s.tracks.filter (fun t => t.kind = TrackKind.audio)

def MediaStream.getTracks (s : MediaStream) : List MediaStreamTrack :=
  s.tracks

/-! ### Encoder model (MediaRecorder) -/

inductive RecorderState
  | inactive
  | recording
deriving DecidableEq, Repr

/-- A MediaRecorder as configured by startRecording: it is created with
`new MediaRecorder(combinedStream, mimeType, videoBitsPerSecond: 2500000,
audioBitsPerSecond: 128000)` and immediately started with
`recorder.start(1000)`, so the embedded value already carries the
`recording` state. -/
structure MediaRecorder where
  stream : MediaStream
  mimeType : String
  videoBitsPerSecond : Nat
  audioBitsPerSecond : Nat
  state : RecorderState
deriving DecidableEq, Repr

/-- A Blob as built by `new Blob(chunks, type mimeType)`: the concatenated
chunk bytes plus the MIME tag. -/
structure Blob where
  type : String
  data : List Nat
deriving DecidableEq, Repr

/-- Model of `URL.createObjectURL(blob)`: some URL string for the blob. -/
def createObjectURL (b : Blob) : String :=
  "blob:recording-" ++ toString b.data.length

/-! ### Client component state (the useState fields of App) -/

structure AppState where
  isRecording : Bool
  mediaRecorder : Option MediaRecorder
  recordedChunks : List Blob
  recordingUrl : Option String
  uploadStatus : String
  refreshKey : Nat
  recordingTime : Nat
  stream : Option MediaStream
  error : String
deriving DecidableEq, Repr

/-- The useState initial values of the App component. -/
def initialAppState : AppState :=
  { isRecording := false
    mediaRecorder := none
    recordedChunks := []
    recordingUrl := none
    uploadStatus := ""
    refreshKey := 0
    recordingTime := 0
    stream := none
    error := "" }

def MAX_RECORDING_TIME : Nat := 180

/-! ### Stop-call events

Calls to `mediaRecorder.stop()` and `track.stop()` are observable effects;
handlers return them alongside the new state so claims about resource
release can count them (with multiplicity). -/

structure StopEvents where
  encoderStopCalls : Nat
  trackStops : List MediaStreamTrack
deriving DecidableEq, Repr

def noStopEvents : StopEvents :=
  { encoderStopCalls := 0, trackStops := [] }

def appendEvents (a b : StopEvents) : StopEvents :=
  { encoderStopCalls := a.encoderStopCalls + b.encoderStopCalls
    trackStops := a.trackStops ++ b.trackStops }

/-- Number of stop calls received by a given track in an event log. -/
def countStops (ev : StopEvents) (t : MediaStreamTrack) : Nat :=
  (ev.trackStops.filter (fun x => x = t)).length

/-! ### stopRecording

```
const stopRecording = () => {
  if (mediaRecorder && mediaRecorder.state === "recording") {
    mediaRecorder.stop();
  }
  setIsRecording(false);
  if (stream) {
    stream.getTracks().forEach(track => track.stop());
    setStream(null);
  }
  if (videoRef.current) { videoRef.current.srcObject = null; }
};
```
`mediaRecorder` and `stream` are read from the closure snapshot `snap`;
the setters update the current state `cur`. -/

def stopRecording (snap cur : AppState) : AppState × StopEvents :=
  let encoderStops : Nat :=
    match snap.mediaRecorder with
    | some r => if r.state = RecorderState.recording then 1 else 0
    | none => 0
  let cur1 : AppState := { cur with isRecording := false }
  match snap.stream with
  | some st =>
      ({ cur1 with stream := none },
       { encoderStopCalls := encoderStops, trackStops := st.getTracks })
  | none =>
      (cur1, { encoderStopCalls := encoderStops, trackStops := [] })

/-! ### The timer tick

```
timerRef.current = setInterval(() => {
  setRecordingTime(prevTime => {
    const newTime = prevTime + 1;
    if (newTime >= MAX_RECORDING_TIME) {
      stopRecording();
      return MAX_RECORDING_TIME;
    }
    return newTime;
  });
}, 1000);
```
The interval is installed by the timer useEffect when `isRecording` becomes
true, so the `stopRecording` it calls has the snapshot of the render in
which recording started (`snap`).  The returned Bool records whether
stopRecording was invoked during the tick. -/

def timerTickState (snap cur : AppState) : AppState × StopEvents × Bool :=
  let newTime := cur.recordingTime + 1
  if MAX_RECORDING_TIME ≤ newTime then
    ({ (stopRecording snap cur).1 with recordingTime := MAX_RECORDING_TIME },
     (stopRecording snap cur).2, true)
  else
    ({ cur with recordingTime := newTime }, noStopEvents, false)

/-- Iterated timer ticks from a given state (snapshot fixed, as the interval
closure is). -/
def ticksFrom (snap cur : AppState) : Nat → AppState
  | 0 => cur
  | n + 1 => (timerTickState snap (ticksFrom snap cur n)).1

/-! ### startRecording

The browser environment seen by one call to startRecording: whether
`navigator.mediaDevices.getDisplayMedia` exists, the result of the
getDisplayMedia call (`none` = the promise rejected, e.g. permission
denied), the result of the getUserMedia microphone call (`none` = the
promise rejected), and `MediaRecorder.isTypeSupported`. -/

structure Env where
  getDisplayMediaSupported : Bool
  displayResult : Option MediaStream
  micResult : Option MediaStream
  isTypeSupported : String → Bool

def vp9Mime : String := "video/webm;codecs=vp9"

def webmMime : String := "video/webm"

/-- The reset block at the top of startRecording:
```
setRecordedChunks([]); setRecordingUrl(null); setRecordingTime(0);
setUploadStatus(""); setError("");
``` -/
def resetFields (s : AppState) : AppState :=
  { s with recordedChunks := []
           recordingUrl := none
           recordingTime := 0
           uploadStatus := ""
           error := "" }

/-- Stream combination inside startRecording:
```
let combinedStream = displayStream;
try {
  const micStream = await navigator.mediaDevices.getUserMedia(...);
  const audioTracks = [...displayStream.getAudioTracks(), ...micStream.getAudioTracks()];
  combinedStream = new MediaStream([...displayStream.getVideoTracks(), ...audioTracks]);
} catch (micError) { /- continue with display stream only -/ }
``` -/
def combineStreams (displayStream : MediaStream) (micResult : Option MediaStream) : MediaStream :=
  match micResult with
  | none => displayStream
  | some micStream =>
      let audioTracks := displayStream.getAudioTracks ++ micStream.getAudioTracks
      ⟨displayStream.getVideoTracks ++ audioTracks⟩

/-- The catch block of startRecording: `setError(...)`, then
`if (stream) { stream.getTracks().forEach(track => track.stop()); setStream(null); }`.
The `stream` it reads is the closure value of the render that invoked
startRecording (`snapStream`), not the stream set moments earlier by
`setStream(combinedStream)`. -/
def startFailureCleanup (snapStream : Option MediaStream) (msg : String) (cur : AppState) :
    AppState × StopEvents :=
  let cur1 : AppState := { cur with error := "Failed to start recording: " ++ msg }
  match snapStream with
  | some st =>
      ({ cur1 with stream := none },
       { encoderStopCalls := 0, trackStops := st.getTracks })
  | none => (cur1, noStopEvents)

/-- Result of one startRecording call: the new component state, the stop
events emitted (only the catch-block cleanup emits any), the encoder
created and started during the call (if any), and the values captured by
the closures it installs (the onended / onerror handlers and the
stopRecording they call): the captured isRecording and the captured render
snapshot. -/
structure StartOutcome where
  state : AppState
  events : StopEvents
  encoderCreated : Option MediaRecorder
  capturedIsRecording : Bool
  capturedSnapshot : AppState
deriving Repr

/-- The body of startRecording after the reset block, in source order:
support check, getDisplayMedia, best-effort microphone combination,
`setStream(combinedStream)`, the isTypeSupported checks, MIME selection,
recorder creation, `recorder.start(1000)`, `setMediaRecorder(recorder)`,
`setIsRecording(true)`.  Failures thrown anywhere in the try body land in
the catch block (`startFailureCleanup`). -/
def startAfterReset (env : Env) (snap : AppState) (s0 : AppState) : StartOutcome :=
  if ¬ env.getDisplayMediaSupported then
    let (s, ev) := startFailureCleanup snap.stream
      "Screen recording is not supported in this browser. Please use Chrome or Edge." s0
    { state := s, events := ev, encoderCreated := none
      capturedIsRecording := snap.isRecording, capturedSnapshot := snap }
  else
    match env.displayResult with
    | none =>
        let (s, ev) := startFailureCleanup snap.stream "Permission denied" s0
        { state := s, events := ev, encoderCreated := none
          capturedIsRecording := snap.isRecording, capturedSnapshot := snap }
    | some displayStream =>
        let combinedStream := combineStreams displayStream env.micResult
        let s1 : AppState := { s0 with stream := some combinedStream }
        if ¬ env.isTypeSupported vp9Mime ∧ ¬ env.isTypeSupported webmMime then
          let (s, ev) := startFailureCleanup snap.stream
            "WebM recording is not supported in this browser." s1
          { state := s, events := ev, encoderCreated := none
            capturedIsRecording := snap.isRecording, capturedSnapshot := snap }
        else
          let mimeType := if env.isTypeSupported vp9Mime then vp9Mime else webmMime
          let recorder : MediaRecorder :=
            { stream := combinedStream
              mimeType := mimeType
              videoBitsPerSecond := 2500000
              audioBitsPerSecond := 128000
              state := RecorderState.recording }
          { state := { s1 with mediaRecorder := some recorder, isRecording := true }
            events := noStopEvents
            encoderCreated := some recorder
            capturedIsRecording := snap.isRecording
            capturedSnapshot := snap }

/-- startRecording: the reset block runs first, before any support check or
device acquisition; the closures installed later capture the invoking
render snapshot `s`. -/
def startRecording (env : Env) (s : AppState) : StartOutcome :=
  startAfterReset env s (resetFields s)

/-! ### recorder.onstop

```
recorder.onstop = () => {
  const blob = new Blob(chunks, { type: mimeType });
  const url = URL.createObjectURL(blob);
  setRecordingUrl(url);
  setRecordedChunks([blob]);
  combinedStream.getTracks().forEach(track => { track.stop(); });
  setStream(null);
};
```
`chunks`, `mimeType` and `combinedStream` are the closure values captured
at encoder-start time. -/

def recorderOnstop (chunks : List (List Nat)) (mimeType : String)
    (combinedStream : MediaStream) (cur : AppState) : AppState × StopEvents :=
  let blob : Blob := { type := mimeType, data := chunks.foldr (· ++ ·) [] }
  ({ cur with recordingUrl := some (createObjectURL blob)
              recordedChunks := [blob]
              stream := none },
   { encoderStopCalls := 0, trackStops := combinedStream.getTracks })

/-! ### The display-track onended handler

```
displayStream.getVideoTracks()[0].onended = () => {
  console.log("Screen sharing ended by user");
  if (isRecording) {
    stopRecording();
  }
};
```
Both `isRecording` and `stopRecording` here are the closure values of the
render in which startRecording ran. -/

def onendedHandler (capturedIsRecording : Bool) (snap cur : AppState) :
    AppState × StopEvents :=
  if capturedIsRecording then stopRecording snap cur
  else (cur, noStopEvents)

/-! ### handleUpload

```
const handleUpload = async () => {
  if (recordedChunks.length === 0) { alert(...); return; }
  setUploadStatus("uploading");
  try {
    ... axios.post(...) ...
    setUploadStatus("success");
    setRefreshKey(prevKey => prevKey + 1);
  } catch (error) {
    setUploadStatus("error");
  }
};
```
The axios call either resolves (201) or throws (network error, timeout, or
non-2xx response status); `UploadOutcome` is that result.  Neither branch
touches recordedChunks or recordingUrl. -/

inductive UploadOutcome
  | success (recordingId : Nat)
  | failure
deriving DecidableEq, Repr

def handleUpload (outcome : UploadOutcome) (s : AppState) : AppState :=
  if s.recordedChunks = [] then s
  else
    let s1 : AppState := { s with uploadStatus := "uploading" }
    match outcome with
    | UploadOutcome.success _ =>
        { s1 with uploadStatus := "success", refreshKey := s1.refreshKey + 1 }
    | UploadOutcome.failure =>
        { s1 with uploadStatus := "error" }

/-! ### Session exit paths (for the resource-release claims)

A canonical browser environment in which one session runs: screen capture
available and granted (stream `d`), microphone result `mic`, every MIME
type supported. -/

def sessionEnv (d : MediaStream) (mic : Option MediaStream) : Env :=
  { getDisplayMediaSupported := true
    displayResult := some d
    micResult := mic
    isTypeSupported := fun _ => true }

/-- The manual-stop exit path of one session: startRecording from the idle
initial state, then the user clicks Stop (stopRecording with the
recording-render snapshot, which React gives the Stop button handler), then
the asynchronous recorder.onstop fires with its captured chunks, mimeType
and combinedStream. -/
def manualStopPath (d : MediaStream) (mic : Option MediaStream)
    (chunks : List (List Nat)) : AppState × StopEvents :=
  let combined := combineStreams d mic
  let start := startRecording (sessionEnv d mic) initialAppState
  let step1 := stopRecording start.state start.state
  let step2 := recorderOnstop chunks vp9Mime combined step1.1
  (step2.1, appendEvents step1.2 step2.2)

/-- The 180-second timeout exit path: the session reaches elapsed time 179,
the next timer tick invokes stopRecording (with the recording-render
snapshot captured by the interval closure), then recorder.onstop fires. -/
def timeoutStopPath (d : MediaStream) (mic : Option MediaStream)
    (chunks : List (List Nat)) : AppState × StopEvents :=
  let combined := combineStreams d mic
  let start := startRecording (sessionEnv d mic) initialAppState
  let s179 : AppState := { start.state with recordingTime := 179 }
  let step1 := timerTickState start.state s179
  let step2 := recorderOnstop chunks vp9Mime combined step1.1
  (step2.1, appendEvents step1.2.1 step2.2)

/-- A concrete display stream for closed statements: one video track and one
system-audio track. -/
def demoDisplayStream : MediaStream :=
  ⟨[⟨0, TrackKind.video⟩, ⟨1, TrackKind.audio⟩]⟩

/-! ### Server model (Express + MySQL + uploads directory) -/

/-- One row of the `recordings` table:
`id INT AUTO_INCREMENT PRIMARY KEY, filename VARCHAR(255), size BIGINT,
created_at TIMESTAMP, updated_at TIMESTAMP`. -/
structure RecordingRow where
  id : Nat
  filename : String
  size : Nat
  created_at : Nat
deriving DecidableEq, Repr

/-- Server state: the table rows (in insertion order), the uploads
directory as an association list from filename to file bytes (later writes
shadow earlier ones), the AUTO_INCREMENT counter, and the clock used for
created_at. -/
structure ServerState where
  rows : List RecordingRow
  files : List (String × List Nat)
  nextId : Nat
  now : Nat
deriving DecidableEq, Repr

def fsWrite (dir : List (String × List Nat)) (name : String) (data : List Nat) :
    List (String × List Nat) :=
  (name, data) :: dir

def fsLookup (dir : List (String × List Nat)) (name : String) : Option (List Nat) :=
  (dir.find? (fun e => e.1 == name)).map (fun e => e.2)

inductive PostResponse
  | created (recordingId : Nat)
  | badRequest
deriving DecidableEq, Repr

/-- POST /api/recordings.  Multer writes the uploaded field `video` to the
uploads directory under a generated filename (and reports its byte size)
before the handler runs; the handler then does
`INSERT INTO recordings (filename, size) VALUES (?, ?)` and answers
`201 { recordingId: result.insertId }`, or `400` when no file was sent. -/
def postRecording (file : Option (String × List Nat)) (s : ServerState) :
    ServerState × PostResponse :=
  match file with
  | none => (s, PostResponse.badRequest)
  | some (name, data) =>
      let s1 : ServerState := { s with files := fsWrite s.files name data }
      let row : RecordingRow :=
        { id := s1.nextId, filename := name, size := data.length, created_at := s1.now }
      ({ s1 with rows := s1.rows ++ [row], nextId := s1.nextId + 1 },
       PostResponse.created s1.nextId)

/-- ORDER BY created_at DESC, by insertion sort (sort order newest first;
only membership matters for the claims). -/
def insertByCreatedDesc (r : RecordingRow) : List RecordingRow → List RecordingRow
  | [] => [r]
  | x :: xs =>
      if x.created_at < r.created_at then r :: x :: xs
      else x :: insertByCreatedDesc r xs

def orderByCreatedDesc : List RecordingRow → List RecordingRow
  | [] => []
  | x :: xs => insertByCreatedDesc x (orderByCreatedDesc xs)

/-- GET /api/recordings: `SELECT * FROM recordings ORDER BY created_at DESC`. -/
def listRecordings (s : ServerState) : List RecordingRow :=
  orderByCreatedDesc s.rows

inductive GetResponse
  | notFound
  | stream (data : List Nat)
deriving DecidableEq, Repr

/-- GET /api/recordings/:id: `SELECT * FROM recordings WHERE id = ?`; 404 if
no row; then the file at `uploads/filename` is piped back with
Content-Type video/webm, or 404 if the backing file is missing. -/
def getRecordingById (i : Nat) (s : ServerState) : GetResponse :=
  match s.rows.find? (fun r => r.id == i) with
  | none => GetResponse.notFound
  | some row =>
      match fsLookup s.files row.filename with
      | none => GetResponse.notFound
      | some data => GetResponse.stream data

/-! ### Helper lemmas -/

theorem stopRecording_isRecording (snap cur : AppState) :
    (stopRecording snap cur).1.isRecording = false := by
  unfold stopRecording
  cases snap.stream <;> simp

theorem stopRecording_preserves (snap cur : AppState) :
    (stopRecording snap cur).1.recordedChunks = cur.recordedChunks ∧
    (stopRecording snap cur).1.recordingUrl = cur.recordingUrl ∧
    (stopRecording snap cur).1.recordingTime = cur.recordingTime := by
  unfold stopRecording
  cases snap.stream <;> simp

theorem timerTick_time_le (snap cur : AppState) :
    (timerTickState snap cur).1.recordingTime ≤ MAX_RECORDING_TIME := by
  unfold timerTickState
  by_cases hc : MAX_RECORDING_TIME ≤ cur.recordingTime + 1
  · simp [hc]
  · simp only [if_neg hc]
    omega

theorem mem_insertByCreatedDesc (a r : RecordingRow) (l : List RecordingRow)
    (h : a = r ∨ a ∈ l) : a ∈ insertByCreatedDesc r l := by
  induction l with
  | nil =>
      rcases h with h | h
      · simp [insertByCreatedDesc, h]
      · cases h
  | cons x xs ih =>
      unfold insertByCreatedDesc
      by_cases hc : x.created_at < r.created_at
      · rcases h with h | h <;> simp [hc, h]
      · rcases h with h | h
        · simp only [if_neg hc, List.mem_cons]
          exact Or.inr (ih (Or.inl h))
        · rcases List.mem_cons.mp h with h | h
          · simp [hc, h]
          · simp only [if_neg hc, List.mem_cons]
            exact Or.inr (ih (Or.inr h))

theorem mem_orderByCreatedDesc (a : RecordingRow) (l : List RecordingRow)
    (h : a ∈ l) : a ∈ orderByCreatedDesc l := by
  induction l with
  | nil => cases h
  | cons x xs ih =>
      unfold orderByCreatedDesc
      rcases List.mem_cons.mp h with h | h
      · exact mem_insertByCreatedDesc a x _ (Or.inl h)
      · exact mem_insertByCreatedDesc a x _ (Or.inr (ih h))

theorem find_append_last (p : RecordingRow → Bool) (l : List RecordingRow)
    (x : RecordingRow) (h : ∀ y ∈ l, p y = false) (hx : p x = true) :
    (l ++ [x]).find? p = some x := by
  induction l with
  | nil => simp [List.find?, hx]
  | cons y ys ih =>
      have hy : p y = false := h y (List.mem_cons_self y ys)
      simp only [List.cons_append, List.find?, hy]
      exact ih (fun z hz => h z (List.mem_cons_of_mem y hz))

theorem one_le_countStops_of_mem (l : List MediaStreamTrack) (t : MediaStreamTrack)
    (ev : StopEvents) (hev : ev.trackStops = l ++ l) (ht : t ∈ l) :
    1 ≤ countStops ev t := by
  unfold countStops
  rw [hev, List.filter_append, List.length_append]
  have hmem : t ∈ l.filter (fun x => decide (x = t)) :=
    List.mem_filter.mpr ⟨ht, by simp⟩
  have := List.length_pos_of_mem hmem
  omega

/-! ### Claim theorems -/

/-- Claim C1: for every recording session the elapsed-time counter never
exceeds MAX_RECORDING_TIME = 180: from any state whose counter is within
the bound, every sequence of timer ticks stays within it; and on the tick
in which the counter reaches 180, stopRecording is invoked (the tick flag
is true) and the session is forced out of the Recording state in that same
tick, with the counter clamped to 180. -/
theorem recordingTime_bounded_and_autostop (snap cur : AppState)
    (h : cur.recordingTime ≤ MAX_RECORDING_TIME) :
    (∀ n, (ticksFrom snap cur n).recordingTime ≤ MAX_RECORDING_TIME) ∧
    ((timerTickState snap cur).1.recordingTime = MAX_RECORDING_TIME →
      (timerTickState snap cur).2.2 = true ∧
      (timerTickState snap cur).1.isRecording = false) := by
  constructor
  · intro n
    induction n with
    | zero => exact h
    | succ k ih => exact timerTick_time_le snap (ticksFrom snap cur k)
  · intro hreach
    unfold timerTickState at hreach ⊢
    by_cases hc : MAX_RECORDING_TIME ≤ cur.recordingTime + 1
    · simp [hc, stopRecording_isRecording]
    · simp only [if_neg hc] at hreach
      simp only [MAX_RECORDING_TIME] at hreach hc
      omega

theorem recordingTime_bounded_and_autostop_witness :
    initialAppState.recordingTime ≤ MAX_RECORDING_TIME ∧
    ((∀ n, (ticksFrom initialAppState initialAppState n).recordingTime ≤
        MAX_RECORDING_TIME) ∧
     ((timerTickState initialAppState initialAppState).1.recordingTime =
        MAX_RECORDING_TIME →
      (timerTickState initialAppState initialAppState).2.2 = true ∧
      (timerTickState initialAppState initialAppState).1.isRecording = false)) :=
  ⟨by decide,
   recordingTime_bounded_and_autostop initialAppState initialAppState (by decide)⟩

/-- Claim C2 counterexample: on the manual-stop exit path the acquired
video track receives two stop calls, one from stopRecording and one from
the recorder onstop handler, refuting that every acquired track is stopped
exactly once. -/
theorem track_double_stop_counterexample :
    (⟨0, TrackKind.video⟩ : MediaStreamTrack) ∈
      (combineStreams demoDisplayStream none).getTracks ∧
    countStops (manualStopPath demoDisplayStream none []).2
      ⟨0, TrackKind.video⟩ = 2 := by
  decide

/-- Claim C2 amended: on the exit paths that do leave the Recording state
(user manual stop and the 180-second timeout), every device track acquired
during Acquiring receives at least one stop call, so neither path leaks an
unstopped track; tracks are however stopped more than once on these paths
(both stopRecording and the recorder onstop handler stop every track). -/
theorem track_stop_at_least_once (d : MediaStream) (mic : Option MediaStream)
    (chunks : List (List Nat)) (t : MediaStreamTrack)
    (ht : t ∈ (combineStreams d mic).getTracks) :
    1 ≤ countStops (manualStopPath d mic chunks).2 t ∧
    1 ≤ countStops (timeoutStopPath d mic chunks).2 t := by
  constructor
  · exact one_le_countStops_of_mem (combineStreams d mic).getTracks t _ rfl ht
  · exact one_le_countStops_of_mem (combineStreams d mic).getTracks t _ rfl ht

theorem track_stop_at_least_once_witness :
    ((⟨0, TrackKind.video⟩ : MediaStreamTrack) ∈
        (combineStreams demoDisplayStream none).getTracks) ∧
    (1 ≤ countStops (manualStopPath demoDisplayStream none []).2
        ⟨0, TrackKind.video⟩ ∧
     1 ≤ countStops (timeoutStopPath demoDisplayStream none []).2
        ⟨0, TrackKind.video⟩) :=
  ⟨by decide,
   track_stop_at_least_once demoDisplayStream none [] ⟨0, TrackKind.video⟩ (by decide)⟩

/-- Claim C9: a failed upload attempt (the axios call throwing: network
error, timeout, or non-success status) leaves the local artifact intact:
handleUpload on the failure outcome changes neither recordedChunks nor
recordingUrl, for every component state. -/
theorem upload_failure_preserves_artifact (s : AppState) :
    (handleUpload UploadOutcome.failure s).recordedChunks = s.recordedChunks ∧
    (handleUpload UploadOutcome.failure s).recordingUrl = s.recordingUrl := by
  unfold handleUpload
  by_cases h : s.recordedChunks = [] <;> simp [h]

/-- Claim C10: calling stopRecording when no recording is in progress (the
closure sees no mediaRecorder, or one not in the recording state, and no
live stream) performs no encoder stop call and no track stop call, and
leaves recordedChunks, recordingUrl and recordingTime unchanged. -/
theorem stopRecording_noop_when_idle (snap cur : AppState)
    (hm : snap.mediaRecorder = none ∨
          ∃ r, snap.mediaRecorder = some r ∧ r.state ≠ RecorderState.recording)
    (hs : snap.stream = none) :
    (stopRecording snap cur).2 = noStopEvents ∧
    (stopRecording snap cur).1.recordedChunks = cur.recordedChunks ∧
    (stopRecording snap cur).1.recordingUrl = cur.recordingUrl ∧
    (stopRecording snap cur).1.recordingTime = cur.recordingTime := by
  unfold stopRecording
  rw [hs]
  rcases hm with hm | ⟨r, hr, hstate⟩
  · rw [hm]
    simp [noStopEvents]
  · rw [hr]
    simp [noStopEvents, hstate]

theorem stopRecording_noop_when_idle_witness :
    (initialAppState.mediaRecorder = none ∨
      ∃ r, initialAppState.mediaRecorder = some r ∧
           r.state ≠ RecorderState.recording) ∧
    initialAppState.stream = none ∧
    ((stopRecording initialAppState initialAppState).2 = noStopEvents ∧
     (stopRecording initialAppState initialAppState).1.recordedChunks =
        initialAppState.recordedChunks ∧
     (stopRecording initialAppState initialAppState).1.recordingUrl =
        initialAppState.recordingUrl ∧
     (stopRecording initialAppState initialAppState).1.recordingTime =
        initialAppState.recordingTime) :=
  ⟨Or.inl rfl, rfl,
   stopRecording_noop_when_idle initialAppState initialAppState (Or.inl rfl) rfl⟩

/-- Claim C3: if the screen-capture stream is obtained but the microphone
acquisition fails, the session still reaches the Recording state using only
the screen-sourced tracks: isRecording becomes true, the stream handed on
is the unmodified display stream, and no error is set. -/
theorem mic_failure_still_records (env : Env) (s : AppState) (d : MediaStream)
    (hsup : env.getDisplayMediaSupported = true)
    (hdisp : env.displayResult = some d)
    (hmic : env.micResult = none)
    (hmime : env.isTypeSupported vp9Mime = true ∨
             env.isTypeSupported webmMime = true) :
    (startRecording env s).state.isRecording = true ∧
    (startRecording env s).state.stream = some d ∧
    (startRecording env s).state.error = "" := by
  unfold startRecording startAfterReset
  rw [hdisp, hmic]
  by_cases hv : env.isTypeSupported vp9Mime = true
  · simp [hsup, hv, combineStreams, resetFields]
  · rcases hmime with h | h
    · exact absurd h hv
    · simp [hsup, hv, h, combineStreams, resetFields]

theorem mic_failure_still_records_witness :
    ((sessionEnv demoDisplayStream none).getDisplayMediaSupported = true ∧
     (sessionEnv demoDisplayStream none).displayResult = some demoDisplayStream ∧
     (sessionEnv demoDisplayStream none).micResult = none ∧
     ((sessionEnv demoDisplayStream none).isTypeSupported vp9Mime = true ∨
      (sessionEnv demoDisplayStream none).isTypeSupported webmMime = true)) ∧
    ((startRecording (sessionEnv demoDisplayStream none) initialAppState).state.isRecording = true ∧
     (startRecording (sessionEnv demoDisplayStream none) initialAppState).state.stream =
        some demoDisplayStream ∧
     (startRecording (sessionEnv demoDisplayStream none) initialAppState).state.error = "") :=
  ⟨⟨rfl, rfl, rfl, Or.inl rfl⟩,
   mic_failure_still_records (sessionEnv demoDisplayStream none) initialAppState
     demoDisplayStream rfl rfl rfl (Or.inl rfl)⟩

/-- Claim C4 evaluated at the failing input: in a session started from the
idle state, the onended handler installed on the display video track
captured the isRecording value of the starting render, which is false;
when the user revokes screen sharing at the OS or browser level the
handler therefore performs no transition at all: the session remains in
the Recording state and no encoder stop or track stop occurs, contrary to
the claim that the stop operation runs. -/
theorem revocation_handler_stale_noop :
    (startRecording (sessionEnv demoDisplayStream none) initialAppState).state.isRecording
      = true ∧
    (startRecording (sessionEnv demoDisplayStream none) initialAppState).capturedIsRecording
      = false ∧
    onendedHandler
      (startRecording (sessionEnv demoDisplayStream none) initialAppState).capturedIsRecording
      (startRecording (sessionEnv demoDisplayStream none) initialAppState).capturedSnapshot
      (startRecording (sessionEnv demoDisplayStream none) initialAppState).state =
      ((startRecording (sessionEnv demoDisplayStream none) initialAppState).state,
       noStopEvents) := by
  decide

theorem startAfterReset_preserves (env : Env) (snap s0 : AppState) :
    (startAfterReset env snap s0).state.recordingTime = s0.recordingTime ∧
    (startAfterReset env snap s0).state.recordedChunks = s0.recordedChunks ∧
    (startAfterReset env snap s0).state.recordingUrl = s0.recordingUrl ∧
    (startAfterReset env snap s0).state.uploadStatus = s0.uploadStatus := by
  unfold startAfterReset startFailureCleanup
  by_cases hsup : env.getDisplayMediaSupported = true
  · cases hd : env.displayResult with
    | none => cases hstream : snap.stream <;> simp [hsup, hd, hstream]
    | some d =>
        by_cases hv : env.isTypeSupported vp9Mime = true
        · simp [hsup, hd, hv]
        · by_cases hw : env.isTypeSupported webmMime = true
          · simp [hsup, hd, hv, hw]
          · cases hstream : snap.stream <;> simp [hsup, hd, hv, hw, hstream]
  · cases hstream : snap.stream <;> simp [hsup, hstream]

/-- Claim C5: startRecording performs the full reset first, before any
support check or device acquisition (it factors through resetFields), the
reset clears elapsed time, recorded chunks, recording URL, upload status
and error for every prior state of those fields, and on every environment
outcome the state startRecording produces still carries elapsed time 0, no
chunks, no URL and empty upload status. -/
theorem startRecording_full_reset (env : Env) (s : AppState) :
    startRecording env s = startAfterReset env s (resetFields s) ∧
    (resetFields s).recordingTime = 0 ∧
    (resetFields s).recordedChunks = [] ∧
    (resetFields s).recordingUrl = none ∧
    (resetFields s).uploadStatus = "" ∧
    (resetFields s).error = "" ∧
    (startRecording env s).state.recordingTime = 0 ∧
    (startRecording env s).state.recordedChunks = [] ∧
    (startRecording env s).state.recordingUrl = none ∧
    (startRecording env s).state.uploadStatus = "" := by
  have hp := startAfterReset_preserves env s (resetFields s)
  exact ⟨rfl, rfl, rfl, rfl, rfl, rfl, hp.1, hp.2.1, hp.2.2.1, hp.2.2.2⟩

/-- Claim C6: uploading an artifact of size S via POST /api/recordings
returns 201 with the freshly assigned id; GET /api/recordings/:id with that
id then delivers a byte stream whose length equals S, and a subsequent
GET /api/recordings includes an entry whose size equals S.  The freshness
hypothesis is the AUTO_INCREMENT invariant that no existing row already
uses the next id. -/
theorem upload_roundtrip (s : ServerState) (name : String) (data : List Nat)
    (hfresh : ∀ r ∈ s.rows, r.id ≠ s.nextId) :
    (postRecording (some (name, data)) s).2 = PostResponse.created s.nextId ∧
    (∃ bs, getRecordingById s.nextId (postRecording (some (name, data)) s).1 =
        GetResponse.stream bs ∧ bs.length = data.length) ∧
    (∃ r ∈ listRecordings (postRecording (some (name, data)) s).1,
        r.size = data.length) := by
  refine ⟨rfl, ?_, ?_⟩
  · refine ⟨data, ?_, rfl⟩
    have hrow : ((postRecording (some (name, data)) s).1.rows.find?
        (fun r => r.id == s.nextId)) =
        some (RecordingRow.mk s.nextId name data.length s.now) := by
      show ((s.rows ++ [RecordingRow.mk s.nextId name data.length s.now]).find?
        (fun r => r.id == s.nextId)) = _
      apply find_append_last
      · intro y hy
        simpa using hfresh y hy
      · simp
    unfold getRecordingById
    rw [hrow]
    show (match fsLookup (fsWrite s.files name data) name with
          | none => GetResponse.notFound
          | some d => GetResponse.stream d) = GetResponse.stream data
    unfold fsLookup fsWrite
    simp
  · refine ⟨RecordingRow.mk s.nextId name data.length s.now, ?_, rfl⟩
    unfold listRecordings
    apply mem_orderByCreatedDesc
    show RecordingRow.mk s.nextId name data.length s.now ∈
      s.rows ++ [RecordingRow.mk s.nextId name data.length s.now]
    simp

theorem upload_roundtrip_witness :
    (∀ r ∈ (⟨[], [], 1, 0⟩ : ServerState).rows,
        r.id ≠ (⟨[], [], 1, 0⟩ : ServerState).nextId) ∧
    ((postRecording (some ("video-1.webm", [7, 8, 9])) ⟨[], [], 1, 0⟩).2 =
        PostResponse.created 1 ∧
     (∃ bs, getRecordingById 1
          (postRecording (some ("video-1.webm", [7, 8, 9])) ⟨[], [], 1, 0⟩).1 =
            GetResponse.stream bs ∧ bs.length = [7, 8, 9].length) ∧
     (∃ r ∈ listRecordings
          (postRecording (some ("video-1.webm", [7, 8, 9])) ⟨[], [], 1, 0⟩).1,
        r.size = [7, 8, 9].length)) :=
  ⟨by simp,
   upload_roundtrip ⟨[], [], 1, 0⟩ "video-1.webm" [7, 8, 9] (by simp)⟩

/-- Claim C7: encoder-format selection is the fixed two-step preference of
the source: vp9-in-webm when supported, otherwise plain webm when
supported, and when neither is supported the session fails with an error
before any encoder is created; and the finalized artifact, the blob the
recorder onstop handler builds, is tagged with exactly the MIME type the
encoder was started with. -/
theorem mime_selection_and_artifact_tag (env : Env) (s : AppState)
    (d : MediaStream)
    (hsup : env.getDisplayMediaSupported = true)
    (hdisp : env.displayResult = some d) :
    (env.isTypeSupported vp9Mime = true →
      ∃ r, (startRecording env s).encoderCreated = some r ∧
           r.mimeType = vp9Mime) ∧
    (env.isTypeSupported vp9Mime = false →
     env.isTypeSupported webmMime = true →
      ∃ r, (startRecording env s).encoderCreated = some r ∧
           r.mimeType = webmMime) ∧
    (env.isTypeSupported vp9Mime = false →
     env.isTypeSupported webmMime = false →
      (startRecording env s).encoderCreated = none ∧
      (startRecording env s).state.error ≠ "") ∧
    (∀ chunks mime combined cur,
      (recorderOnstop chunks mime combined cur).1.recordedChunks =
        [{ type := mime, data := chunks.foldr (· ++ ·) [] }]) := by
  refine ⟨?_, ?_, ?_, ?_⟩
  · intro hv
    unfold startRecording startAfterReset
    rw [hdisp]
    simp [hsup, hv]
  · intro hv hw
    unfold startRecording startAfterReset
    rw [hdisp]
    simp [hsup, hv, hw]
  · intro hv hw
    unfold startRecording startAfterReset
    rw [hdisp]
    cases hstream : s.stream <;>
      simp [hsup, hv, hw, startFailureCleanup, resetFields, hstream]
  · intro chunks mime combined cur
    rfl

theorem mime_selection_and_artifact_tag_witness :
    ((sessionEnv demoDisplayStream none).getDisplayMediaSupported = true ∧
     (sessionEnv demoDisplayStream none).displayResult = some demoDisplayStream) ∧
    (((sessionEnv demoDisplayStream none).isTypeSupported vp9Mime = true →
      ∃ r, (startRecording (sessionEnv demoDisplayStream none)
              initialAppState).encoderCreated = some r ∧
           r.mimeType = vp9Mime) ∧
     ((sessionEnv demoDisplayStream none).isTypeSupported vp9Mime = false →
      (sessionEnv demoDisplayStream none).isTypeSupported webmMime = true →
      ∃ r, (startRecording (sessionEnv demoDisplayStream none)
              initialAppState).encoderCreated = some r ∧
           r.mimeType = webmMime) ∧
     ((sessionEnv demoDisplayStream none).isTypeSupported vp9Mime = false →
      (sessionEnv demoDisplayStream none).isTypeSupported webmMime = false →
      (startRecording (sessionEnv demoDisplayStream none)
          initialAppState).encoderCreated = none ∧
      (startRecording (sessionEnv demoDisplayStream none)
          initialAppState).state.error ≠ "") ∧
     (∀ chunks mime combined cur,
       (recorderOnstop chunks mime combined cur).1.recordedChunks =
         [{ type := mime, data := chunks.foldr (· ++ ·) [] }])) :=
  ⟨⟨rfl, rfl⟩,
   mime_selection_and_artifact_tag (sessionEnv demoDisplayStream none)
     initialAppState demoDisplayStream rfl rfl⟩

/-- Claim C8: when the microphone stream is acquired, the stream handed to
the encoder is exactly all video tracks of the screen capture, followed by
all audio tracks of the screen capture, followed by all audio tracks of
the microphone stream; when microphone acquisition fails it is the
unmodified screen-capture stream. -/
theorem encoder_stream_composition (env : Env) (s : AppState) (d : MediaStream)
    (hsup : env.getDisplayMediaSupported = true)
    (hdisp : env.displayResult = some d)
    (hmime : env.isTypeSupported vp9Mime = true ∨
             env.isTypeSupported webmMime = true) :
    (∀ m, env.micResult = some m →
      ∃ r, (startRecording env s).encoderCreated = some r ∧
        r.stream = ⟨d.getVideoTracks ++ d.getAudioTracks ++ m.getAudioTracks⟩) ∧
    (env.micResult = none →
      ∃ r, (startRecording env s).encoderCreated = some r ∧ r.stream = d) := by
  have hmain : ∃ r, (startRecording env s).encoderCreated = some r ∧
      r.stream = combineStreams d env.micResult := by
    unfold startRecording startAfterReset
    rw [hdisp]
    by_cases hv : env.isTypeSupported vp9Mime = true
    · simp [hsup, hv]
    · rcases hmime with h | h
      · exact absurd h hv
      · simp [hsup, hv, h]
  constructor
  · intro m hm
    rcases hmain with ⟨r, hr, hstream⟩
    refine ⟨r, hr, ?_⟩
    rw [hstream, hm]
    unfold combineStreams
    simp [List.append_assoc]
  · intro hm
    rcases hmain with ⟨r, hr, hstream⟩
    refine ⟨r, hr, ?_⟩
    rw [hstream, hm]
    rfl

theorem encoder_stream_composition_witness :
    ((sessionEnv demoDisplayStream (some ⟨[⟨2, TrackKind.audio⟩]⟩)).getDisplayMediaSupported
        = true ∧
     (sessionEnv demoDisplayStream (some ⟨[⟨2, TrackKind.audio⟩]⟩)).displayResult =
        some demoDisplayStream ∧
     ((sessionEnv demoDisplayStream (some ⟨[⟨2, TrackKind.audio⟩]⟩)).isTypeSupported
          vp9Mime = true ∨
      (sessionEnv demoDisplayStream (some ⟨[⟨2, TrackKind.audio⟩]⟩)).isTypeSupported
          webmMime = true)) ∧
    ((∀ m, (sessionEnv demoDisplayStream (some ⟨[⟨2, TrackKind.audio⟩]⟩)).micResult =
          some m →
      ∃ r, (startRecording (sessionEnv demoDisplayStream (some ⟨[⟨2, TrackKind.audio⟩]⟩))
              initialAppState).encoderCreated = some r ∧
        r.stream = ⟨demoDisplayStream.getVideoTracks ++
          demoDisplayStream.getAudioTracks ++ m.getAudioTracks⟩) ∧
     ((sessionEnv demoDisplayStream (some ⟨[⟨2, TrackKind.audio⟩]⟩)).micResult = none →
      ∃ r, (startRecording (sessionEnv demoDisplayStream (some ⟨[⟨2, TrackKind.audio⟩]⟩))
              initialAppState).encoderCreated = some r ∧
        r.stream = demoDisplayStream)) :=
  ⟨⟨rfl, rfl, Or.inl rfl⟩,
   encoder_stream_composition (sessionEnv demoDisplayStream (some ⟨[⟨2, TrackKind.audio⟩]⟩))
     initialAppState demoDisplayStream rfl rfl (Or.inl rfl)⟩
